import Mathlib

/-!
Shallow embedding of the Financial-Document-Organizer ingestion pipeline:
the scan orchestration (`ScannerService`), the credential lifecycle
(`AuthService`), and the filename/metadata helpers (`DriveService`,
`ScannerService` private helpers).  External collaborators (Gmail, Drive,
Sheets, the relational store) are modelled as oracles supplied through
environment records; machine numbers are modelled as exact rationals /
integers (all divisions performed by the code are by 1024, exact in
IEEE doubles for integer byte counts, so the rational model agrees with
the JavaScript semantics on the sizes the theorems mention).
-/

namespace FinDoc

/-! ### JavaScript string primitives used by the helpers -/

/-- Index of the last occurrence of `.` in a character list (JS
`String.prototype.lastIndexOf('.')` returns `-1` when absent). -/
def lastDotIdx : List Char → Option Nat
  | [] => none
  | c :: cs =>
    match lastDotIdx cs with
    | some n => some (n + 1)
    | none => if c = '.' then some 0 else none

/-- JS `lastIndexOf('.')`: position of the last dot, `-1` if none. -/
def jsLastIndexOfDot (s : String) : Int :=
  match lastDotIdx s.toList with
  | some n => (n : Int)
  | none => -1

/-- JS `substring(start)` with a single argument: a negative start is
clamped to `0`, so `substring(-1)` returns the whole string. -/
def jsSubstringFrom (s : String) (i : Int) : String :=
  String.mk (s.toList.drop i.toNat)

/-- JS `toLowerCase()`, character by character (the filenames and
keywords involved are ASCII). -/
def jsToLower (s : String) : String :=
  String.mk (s.toList.map Char.toLower)

/-- JS `\d` character class. -/
def isDigitChar (c : Char) : Bool := '0' ≤ c ∧ c ≤ '9'

/-- JS `[\s#]` character class (ASCII whitespace or `#`). -/
def isSpaceOrHash (c : Char) : Bool := c = '#' || c.isWhitespace

/-- Greedy `\d+` / `\d*` at the current position. -/
def takeDigits : List Char → List Char
  | [] => []
  | c :: cs => if isDigitChar c then c :: takeDigits cs else []

/-- Greedy `[\s#]*` at the current position. -/
def dropSpaceHash : List Char → List Char
  | [] => []
  | c :: cs => if isSpaceOrHash c then dropSpaceHash cs else c :: cs

/-- Case-insensitive literal match of `kw` at the head; returns the rest. -/
def ciStrip : List Char → List Char → Option (List Char)
  | [], cs => some cs
  | _ :: _, [] => none
  | k :: ks, c :: cs => if k.toLower = c.toLower then ciStrip ks cs else none

/-- Pattern `/kw[\s#]*(\d+)/i` anchored at the current position: the keyword
(case-insensitively), any run of whitespace/`#`, then a nonempty greedy
digit run, which is the captured group. -/
def kwMatchHere (kw : List Char) (cs : List Char) : Option (List Char) :=
  match ciStrip kw cs with
  | none => none
  | some rest =>
    let ds := takeDigits (dropSpaceHash rest)
    if ds.isEmpty then none else some ds

/-- Pattern `/#(\d+)/` anchored at the current position. -/
def hashMatchHere : List Char → Option (List Char)
  | [] => none
  | c :: cs =>
    if c = '#' then
      let ds := takeDigits cs
      if ds.isEmpty then none else some ds
    else none

/-- Pattern `/(\d{4,})/` anchored at the current position: a greedy digit run of
length at least 4. -/
def digitsRunHere (cs : List Char) : Option (List Char) :=
  let ds := takeDigits cs
  if 4 ≤ ds.length then some ds else none

/-- Leftmost match: JS regex matching tries every start position from the
left and returns the first position where the anchored pattern succeeds. -/
def firstMatch (f : List Char → Option (List Char)) : List Char → Option (List Char)
  | [] => f []
  | c :: cs =>
    match f (c :: cs) with
    | some r => some r
    | none => firstMatch f cs

/-! ### `DriveService.extractInvoiceNumber` (gmail.service.ts, DriveService) -/

/-- The ordered pattern list of `DriveService.extractInvoiceNumber`:
`/invoice[\s#]*(\d+)/i`, `/inv[\s#]*(\d+)/i`, `/bill[\s#]*(\d+)/i`,
`/receipt[\s#]*(\d+)/i`, `/#(\d+)/`, `/(\d{4,})/`. -/
def drivePatterns : List (List Char → Option (List Char)) :=
  [ kwMatchHere ("invoice".toList)
  , kwMatchHere ("inv".toList)
  , kwMatchHere ("bill".toList)
  , kwMatchHere ("receipt".toList)
  , hashMatchHere
  , digitsRunHere ]

/-- First pattern (in order) with a match anywhere in the subject. -/
def tryPatterns : List (List Char → Option (List Char)) → List Char → Option (List Char)
  | [], _ => none
  | p :: ps, s =>
    match firstMatch p s with
    | some d => some d
    | none => tryPatterns ps s

/-- Embeds `DriveService.extractInvoiceNumber`.  The `rand` argument is the value
of `Math.random().toString(36).substr(2, 6).toUpperCase()` on the no-match
path, supplied as an oracle because `Math.random()` is nondeterministic;
its outputs are uppercased base-36 digits, i.e. characters in `[A-Z0-9]`. -/
def extractInvoiceNumber (subject : String) (rand : String) : String :=
  match tryPatterns drivePatterns subject.toList with
  | some ds => "INV" ++ String.mk ds
  | none => "INV" ++ rand

/-! ### `ScannerService.isDocumentFile` -/

def documentExtensions : List String :=
  [".pdf", ".doc", ".docx", ".png", ".jpg", ".jpeg", ".gif", ".tiff"]

/-- Embeds `ScannerService.isDocumentFile`: lowercase the filename and take the
substring from `lastIndexOf('.')` (the whole string when there is no dot,
since `substring(-1)` clamps to 0), then test membership in the allow-list. -/
def isDocumentFile (filename : String) : Bool :=
  let extension := jsSubstringFrom (jsToLower filename) (jsLastIndexOfDot filename)
  documentExtensions.contains extension

/-! ### `ScannerService.formatFileSize` -/

def units : List String := ["B", "KB", "MB", "GB"]

/-- One-guard-per-step unfolding of the
`while (size >= 1024 && unitIndex <= units.length - 1)` loop of
`formatFileSize`.  The guard admits an iteration only while
`unitIndex ≤ units.length - 1`, so the loop runs at most
`units.length - unitIndex` more times; that bound is passed as structural
fuel (when the fuel runs out the guard is false anyway, so the two
formulations agree on every input). -/
def fsLoopAux : ℚ → Nat → Nat → ℚ × Nat
  | size, unitIndex, 0 => (size, unitIndex)
  | size, unitIndex, fuel + 1 =>
    if 1024 ≤ size ∧ unitIndex ≤ units.length - 1 then
      fsLoopAux (size / 1024) (unitIndex + 1) fuel
    else
      (size, unitIndex)

/-- The `while` loop of `formatFileSize`; the guard still allows an
iteration at `unitIndex = 3`, so the index can leave the array bounds and
reach 4. -/
def fsLoop (size : ℚ) (unitIndex : Nat) : ℚ × Nat :=
  fsLoopAux size unitIndex (units.length - unitIndex)

/-- JS `Math.round`: round half toward positive infinity. -/
def jsRound (q : ℚ) : ℤ := ⌊q + 1 / 2⌋

/-- Decimal rendering of `k / 100` the way JS template interpolation prints
`Math.round(size * 100) / 100`: trailing zero decimals are dropped
("1" not "1.00", "1.5" not "1.50"). -/
def jsNumToString (k : ℤ) : String :=
  let sign := if k < 0 then "-" else ""
  let a := k.natAbs
  let ip := a / 100
  let fp := a % 100
  if fp = 0 then sign ++ toString ip
  else if fp % 10 = 0 then sign ++ toString ip ++ "." ++ toString (fp / 10)
  else if fp < 10 then sign ++ toString ip ++ ".0" ++ toString fp
  else sign ++ toString ip ++ "." ++ toString fp

/-- Embeds `ScannerService.formatFileSize`.  `units[unitIndex]` out of bounds is
JS `undefined`, which interpolates as the string `"undefined"`. -/
def formatFileSize (sizeInBytes : ℚ) : String :=
  if sizeInBytes = 0 then "Unknown"
  else
    let p := fsLoop sizeInBytes 0
    jsNumToString (jsRound (p.1 * 100)) ++ " " ++ ((units.get? p.2).getD "undefined")

/-! ### Filename and sender-name helpers -/

/-- Character class `[a-zA-Z0-9]`. -/
def isAlnumChar (c : Char) : Bool :=
  ('a' ≤ c ∧ c ≤ 'z') || ('A' ≤ c ∧ c ≤ 'Z') || isDigitChar c

/-- Embeds `ScannerService.extractSenderName`: local part of the address, every
character outside `[a-zA-Z0-9\s]` replaced by a space, then trimmed. -/
def extractSenderName (email : String) : String :=
  String.mk ((email.toList.takeWhile (· ≠ '@')).map
    (fun c => if isAlnumChar c || c.isWhitespace then c else ' ')) |>.trim

/-- The pattern list of `ScannerService.extractInvoiceNumber`: the same
first five patterns, without the `/(\d{4,})/` fallback. -/
def scannerPatterns : List (List Char → Option (List Char)) :=
  [ kwMatchHere ("invoice".toList)
  , kwMatchHere ("inv".toList)
  , kwMatchHere ("bill".toList)
  , kwMatchHere ("receipt".toList)
  , hashMatchHere ]

/-- Embeds `ScannerService.extractInvoiceNumber`: bare captured digits or `null`
(no `INV` prefix, no random fallback — distinct from the DriveService one). -/
def scannerExtractInvoiceNumber (subject : String) : Option String :=
  (tryPatterns scannerPatterns subject.toList).map String.mk

/-- Oracle inputs of `DriveService.generateStructuredFilename` that stand
for ambient JS state: the random invoice token, `new Date(d).toISOString()`
date formatting (`none` = invalid date, where `toISOString` throws), and
today's ISO date. -/
structure NameEnv where
  rand : String
  dateToISO : String → Option String
  today : String

/-- Models `originalFilename.split('.').pop() || 'pdf'`: the last dot-separated
segment, with the empty segment (falsy) replaced by `pdf`. -/
def extensionOf (originalFilename : String) : String :=
  let seg := (originalFilename.splitOn ".").getLastD ""
  if seg = "" then "pdf" else seg

/-- JS template interpolation of a possibly-undefined string. -/
def jsShow : Option String → String
  | none => "undefined"
  | some s => s

/-- Embeds `DriveService.generateStructuredFilename`.  The `originalFilename`
parameter is `Option String` because the one call site in
`ScannerService.processEmail` passes `emailDetails.filename`, a field that
does not exist on `EmailDetails` (JS `undefined`).  Any throw inside the
`try` (invalid date in `toISOString`, or `.split` on `undefined`) lands in
the catch, which returns the degraded name `` `${today}_${originalFilename}` ``. -/
def generateStructuredFilename (ne : NameEnv) (senderEmail subject date : String)
    (originalFilename : Option String) : String :=
  match ne.dateToISO date, originalFilename with
  | some formattedDate, some ofn =>
    let senderName := String.mk ((senderEmail.toList.takeWhile (· ≠ '@')).filter isAlnumChar) |>.take 20
    let invoiceNumber := extractInvoiceNumber subject ne.rand
    senderName ++ "_" ++ invoiceNumber ++ "_" ++ formattedDate ++ "." ++ extensionOf ofn
  | _, _ => ne.today ++ "_" ++ jsShow originalFilename

/-! ### Scanner data model (entities and transient shapes) -/

/-- An element of the Gmail `messages.list` response (only `id` is used). -/
structure MessageRef where
  id : String
deriving Repr, DecidableEq

/-- Embeds `EmailAttachment` (google-auth.interface.ts). -/
structure EmailAttachment where
  filename : String
  attachmentId : String
  mimeType : String
  size : ℚ
deriving Repr, DecidableEq

/-- Embeds `EmailDetails` (google-auth.interface.ts); `sender` embeds the field
named `from` in the source (`from` is a reserved word here). -/
structure EmailDetails where
  id : String
  subject : String
  sender : String
  date : String
  attachments : List EmailAttachment
deriving Repr, DecidableEq

/-- The `processed_documents` row created in `processEmail`. -/
structure ProcessedDocumentRec where
  emailId : String
  messageId : String
  senderEmail : String
  senderName : String
  subject : String
  invoiceNumber : Option String
  emailDate : String
  fileName : String
  originalFileName : String
  driveFileId : String
  driveFileUrl : String
  spreadsheetId : String
  spreadsheetRow : Nat
  fileSize : String
  mimeType : String
  status : String
deriving Repr, DecidableEq

/-- Embeds `ProcessedDocumentResult` (processing-result.interface.ts). -/
structure DocumentSummary where
  emailId : String
  fileName : String
  driveFileId : String
  spreadsheetRow : Nat
deriving Repr, DecidableEq

/-- Embeds `ProcessingResult` (processing-result.interface.ts). -/
structure ProcessingResult where
  processed : Nat
  errors : List String
  details : List DocumentSummary
deriving Repr, DecidableEq

/-- The `scan_logs` row as mutated by `scanAndProcess`; `completedAt` is
abstracted to whether the completion timestamp was set. -/
structure ScanLogRec where
  status : String
  emailsProcessed : Nat
  documentsProcessed : Nat
  errorsCount : Nat
  errorDetails : Option String
  completedAt : Bool
deriving Repr, DecidableEq

/-- Persistent state visible to the scan: the `processed_documents` table,
the last persisted state of this run's `scan_logs` row, and the set of
messages to which the Gmail processed label was applied. -/
structure Db where
  docs : List ProcessedDocumentRec
  savedLog : Option ScanLogRec
  labels : List String
deriving Repr, DecidableEq

/-! ### Collaborator oracles

External service behaviour for one scan invocation.  Attachment bytes are
opaque, so the Drive/Sheets responses to an upload/append are modelled as
functions of the identity of the uploaded attachment (message id,
attachment id) rather than of the byte blob itself.  `saveScanLog n` is
the outcome of the `n`-th `scanLogRepository.save` call of the run. -/
structure ScanEnv where
  ensureFolder : Except String String
  ensureSpreadsheet : Except String String
  searchEmails : Except String (List MessageRef)
  getEmailDetails : String → Except String EmailDetails
  downloadAttachment : String → String → Except String Unit
  uploadFile : String → String → Except String String
  logDocument : String → String → Except String Nat
  saveDoc : String → String → Except String Unit
  labelEmail : String → Except String Unit
  saveScanLog : Nat → Except String Unit
  nameEnv : NameEnv

/-- Prefix an error message, as the services' catch blocks do. -/
def wrapErr (prefixMsg : String) : Except String α → Except String α
  | .ok a => .ok a
  | .error e => .error (prefixMsg ++ e)

/-- Embeds `GmailService.searchEmails` error wrapping. -/
def gmailSearchEmails (env : ScanEnv) : Except String (List MessageRef) :=
  wrapErr "Gmail search failed: " env.searchEmails

/-- Embeds `GmailService.getEmailDetails` error wrapping. -/
def gmailGetEmailDetails (env : ScanEnv) (messageId : String) : Except String EmailDetails :=
  wrapErr "Failed to get email details: " (env.getEmailDetails messageId)

/-- Embeds `GmailService.downloadAttachment` error wrapping. -/
def gmailDownloadAttachment (env : ScanEnv) (messageId attachmentId : String) : Except String Unit :=
  wrapErr "Failed to download attachment: " (env.downloadAttachment messageId attachmentId)

/-- Embeds `GmailService.labelEmail` error wrapping (its inner
`ensureLabelExists` swallows its own errors and never throws). -/
def gmailLabelEmail (env : ScanEnv) (messageId : String) : Except String Unit :=
  wrapErr "Failed to label email: " (env.labelEmail messageId)

/-- Embeds `DriveService.ensureFolderExists` error wrapping. -/
def driveEnsureFolder (env : ScanEnv) : Except String String :=
  wrapErr "Failed to manage Drive folder: " env.ensureFolder

/-- Embeds `DriveService.uploadFile` error wrapping. -/
def driveUploadFile (env : ScanEnv) (messageId attachmentId : String) : Except String String :=
  wrapErr "Failed to upload file: " (env.uploadFile messageId attachmentId)

/-- Embeds `SheetsService.ensureSpreadsheetExists` error wrapping. -/
def sheetsEnsureSpreadsheet (env : ScanEnv) : Except String String :=
  wrapErr "Failed to manage spreadsheet: " env.ensureSpreadsheet

/-- Embeds `SheetsService.logDocument` error wrapping. -/
def sheetsLogDocument (env : ScanEnv) (messageId attachmentId : String) : Except String Nat :=
  wrapErr "Failed to log document: " (env.logDocument messageId attachmentId)

/-! ### `ScannerService.processEmail` -/

/-- The message of the `ReferenceError` raised by the document push in
`processEmail`: the declared variable is `structuredFileName`
(scanner.service.ts line 143), but lines 189/194 reference the undeclared
identifier `structuredFilename`. -/
def refErrorMsg : String := "structuredFilename is not defined"

/-- The attachment-level catch wrapper of `processEmail`. -/
def wrapAttach (filename msg : String) : String :=
  "Failed to process attachment " ++ filename ++ ": " ++ msg

/-- The `for (const attachment of emailDetails.attachments)` loop of
`processEmail`.  Each iteration either skips a non-document file,
or runs download → filename generation → upload → sheet append →
`processedDocumentRepository.save`; after a successful save the loop body
evaluates the undeclared identifier `structuredFilename`
(a `ReferenceError`), which the attachment catch wraps and rethrows, so
the email fails while the saved document row remains in the store. -/
def processAttachments (env : ScanEnv) (messageId folderId spreadsheetId : String)
    (details : EmailDetails) :
    List EmailAttachment → Db → List DocumentSummary →
    (Except String (List DocumentSummary)) × Db
  | [], db, acc => (.ok acc, db)
  | a :: rest, db, acc =>
    if ¬ isDocumentFile a.filename then
      processAttachments env messageId folderId spreadsheetId details rest db acc
    else
      match gmailDownloadAttachment env messageId a.attachmentId with
      | .error e => (.error (wrapAttach a.filename e), db)
      | .ok _ =>
        -- the call site passes `emailDetails.filename`, a field absent from
        -- `EmailDetails` (undefined), as the original filename
        let structuredFileName :=
          generateStructuredFilename env.nameEnv details.sender details.subject details.date none
        match driveUploadFile env messageId a.attachmentId with
        | .error e => (.error (wrapAttach a.filename e), db)
        | .ok driveFileId =>
          match sheetsLogDocument env messageId a.attachmentId with
          | .error e => (.error (wrapAttach a.filename e), db)
          | .ok rowNumber =>
            let doc : ProcessedDocumentRec :=
              { emailId := messageId
                messageId := messageId
                senderEmail := details.sender
                senderName := extractSenderName details.sender
                subject := details.subject
                invoiceNumber := scannerExtractInvoiceNumber details.subject
                emailDate := details.date
                fileName := structuredFileName
                originalFileName := a.filename
                driveFileId := driveFileId
                driveFileUrl := "https://drive.google.com/file/d/" ++ driveFileId ++ "/view"
                spreadsheetId := spreadsheetId
                spreadsheetRow := rowNumber
                fileSize := formatFileSize a.size
                mimeType := a.mimeType
                status := "completed" }
            match env.saveDoc messageId a.attachmentId with
            | .error e => (.error (wrapAttach a.filename e), db)
            | .ok _ =>
              -- save succeeded; the subsequent push statement raises the
              -- ReferenceError, wrapped by the attachment catch
              (.error (wrapAttach a.filename refErrorMsg),
               { db with docs := db.docs ++ [doc] })

/-- Embeds `ScannerService.processEmail`: fetch details (the `!emailDetails`
null-check is unreachable, `getEmailDetails` returns a value or throws),
run the attachment loop, and apply the processed label only when at least
one attachment produced a summary. -/
def processEmail (env : ScanEnv) (db : Db) (messageId folderId spreadsheetId : String) :
    (Except String (List DocumentSummary)) × Db :=
  match gmailGetEmailDetails env messageId with
  | .error e => (.error e, db)
  | .ok details =>
    match processAttachments env messageId folderId spreadsheetId details
        details.attachments db [] with
    | (.error e, db) => (.error e, db)
    | (.ok processedDocs, db) =>
      if processedDocs.length > 0 then
        match gmailLabelEmail env messageId with
        | .error e => (.error e, db)
        | .ok _ => (.ok processedDocs, { db with labels := db.labels ++ [messageId] })
      else (.ok processedDocs, db)

/-! ### `ScannerService.scanAndProcess` -/

/-- Models `JSON.stringify` of an array of plain strings (no escaping needed for
the messages produced here). -/
def jsonStringifyArr (xs : List String) : String :=
  "[" ++ String.intercalate "," (xs.map (fun s => "\"" ++ s ++ "\"")) ++ "]"

/-- The per-email loop of `scanAndProcess`: each email is processed inside
its own try/catch; success appends summaries and bumps the counter,
failure records `` `Email ${message.id}: ${error.message}` `` and moves on. -/
def runLoop (env : ScanEnv) (folderId spreadsheetId : String) :
    List MessageRef → Db → ProcessingResult → ProcessingResult × Db
  | [], db, r => (r, db)
  | m :: ms, db, r =>
    match processEmail env db m.id folderId spreadsheetId with
    | (.ok processedDocs, db) =>
      runLoop env folderId spreadsheetId ms db
        { r with processed := r.processed + 1, details := r.details ++ processedDocs }
    | (.error e, db) =>
      runLoop env folderId spreadsheetId ms db
        { r with errors := r.errors ++ ["Email " ++ m.id ++ ": " ++ e] }

/-- The dedup filter of `scanAndProcess`:
`messages.filter((msg) => !processedEmailIds.includes(msg.id))` where
`processedEmailIds` is the list of `emailId`s of all stored documents. -/
def unprocessedOf (messages : List MessageRef) (db : Db) : List MessageRef :=
  messages.filter (fun m => ¬ (db.docs.map (·.emailId)).contains m.id)

/-- The body of the `try` block of `scanAndProcess` (steps 2–7).  Errors
carry the `scanLog` state and save-call counter at the moment of the
throw, because the catch block mutates and persists that same object. -/
def scanBody (env : ScanEnv) (db : Db) (log : ScanLogRec) (n : Nat) :
    (Except (String × ScanLogRec × Nat) (ProcessingResult × ScanLogRec × Nat)) × Db :=
  match driveEnsureFolder env with
  | .error e => (.error (e, log, n), db)
  | .ok folderId =>
    match sheetsEnsureSpreadsheet env with
    | .error e => (.error (e, log, n), db)
    | .ok spreadsheetId =>
      match gmailSearchEmails env with
      | .error e => (.error (e, log, n), db)
      | .ok messages =>
        let unprocessedMessages := unprocessedOf messages db
        if unprocessedMessages.isEmpty then
          let log := { log with status := "completed", completedAt := true }
          match env.saveScanLog n with
          | .error e => (.error (e, log, n + 1), db)
          | .ok _ =>
            (.ok (⟨0, [], []⟩, log, n + 1), { db with savedLog := some log })
        else
          match runLoop env folderId spreadsheetId unprocessedMessages db ⟨0, [], []⟩ with
          | (r, db) =>
            let log := { log with
              status := "completed"
              emailsProcessed := r.processed
              documentsProcessed := r.details.length
              errorsCount := r.errors.length
              errorDetails :=
                if r.errors.length > 0 then some (jsonStringifyArr r.errors) else none
              completedAt := true }
            match env.saveScanLog n with
            | .error e => (.error (e, log, n + 1), db)
            | .ok _ => (.ok (r, log, n + 1), { db with savedLog := some log })

/-- Embeds `ScannerService.scanAndProcess`.  The initial `scanLog` save sits
outside the try/catch: its failure propagates raw and the run is never
marked failed.  Any failure inside the try reaches the single catch,
which sets `status = 'failed'` and `errorDetails = error.message` on the
current `scanLog` object, persists it, and rethrows wrapped as
`` `Scan process failed: ${error.message}` ``; if that save itself throws,
its error propagates instead and nothing is persisted. -/
def scanAndProcess (env : ScanEnv) (db : Db) : (Except String ProcessingResult) × Db :=
  let scanLog : ScanLogRec :=
    { status := "started", emailsProcessed := 0, documentsProcessed := 0,
      errorsCount := 0, errorDetails := none, completedAt := false }
  match env.saveScanLog 0 with
  | .error e => (.error e, db)
  | .ok _ =>
    match scanBody env { db with savedLog := some scanLog } scanLog 1 with
    | (.ok (r, _, _), db) => (.ok r, db)
    | (.error (e, log, n), db) =>
      let failedLog :=
        { log with status := "failed", errorDetails := some e, completedAt := true }
      match env.saveScanLog n with
      | .error e2 => (.error e2, db)
      | .ok _ =>
        (.error ("Scan process failed: " ++ e), { db with savedLog := some failedLog })

/-! ### `AuthService` (credential lifecycle) -/

/-- The `user_tokens` row (user-token.entity.ts); `refreshToken` and
`expiryDate` are nullable columns. -/
structure UserToken where
  accessToken : String
  refreshToken : Option String
  scope : String
  tokenType : String
  expiryDate : Option Int
deriving Repr, DecidableEq

/-- Embeds `Credentials` from google-auth-library: every field optional. -/
structure Credentials where
  access_token : Option String
  refresh_token : Option String
  scope : Option String
  token_type : Option String
  expiry_date : Option Int
deriving Repr, DecidableEq

/-- JS truthiness of a nullable string (`null`/`undefined` and `''` are
falsy). -/
def strTruthy : Option String → Bool
  | none => false
  | some s => s ≠ ""

/-- JS `a || b` on nullable strings. -/
def jsOrStr : Option String → Option String → Option String
  | a, b => if strTruthy a then a else b

/-- The guard `userToken.expiryDate && userToken.expiryDate <= Date.now()`:
a `null` or `0` expiry is falsy, so it never counts as expired. -/
def expiryTruthyAndPast (expiryDate : Option Int) (now : Int) : Bool :=
  match expiryDate with
  | none => false
  | some d => d ≠ 0 && d ≤ now

/-- Ambient inputs of one `AuthService` call: the clock, the outcome of the
`oauth2Client.refreshAccessToken()` token exchange, and whether the
`userTokenRepository.save` write succeeds. -/
structure AuthEnv where
  now : Int
  refreshAccessToken : Except String Credentials
  saveOk : Bool

/-- The single-row token store keyed by `default_user`. -/
structure AuthDb where
  userToken : Option UserToken
deriving Repr, DecidableEq

/-- State threaded through an `AuthService` call: the store, the
`oauth2Client` credential state, and how many times the token exchange
was invoked. -/
structure AuthState where
  db : AuthDb
  clientCredentials : Option Credentials
  refreshCalls : Nat
deriving Repr, DecidableEq

/-- Embeds `AuthService.loadTokens` (repository read; a read error is caught and
returned as `null`, which the store model folds into `none`). -/
def loadTokens (db : AuthDb) : Option UserToken := db.userToken

/-- The credentials object built from a stored row and passed to
`oauth2Client.setCredentials`. -/
def tokenToCredentials (ut : UserToken) : Credentials :=
  { access_token := some ut.accessToken
    refresh_token := ut.refreshToken
    scope := some ut.scope
    token_type := some ut.tokenType
    expiry_date := ut.expiryDate }

/-- Embeds `AuthService.saveTokens`: load-modify-or-create-then-save keyed by
`default_user`.  On update, the refresh token is carried over when the
exchange omits a new one (`tokens.refresh_token || userToken.refreshToken`);
a failing save is caught and rethrown as the fixed message. -/
def saveTokens (env : AuthEnv) (db : AuthDb) (tokens : Credentials) :
    Except String AuthDb :=
  let userToken : UserToken :=
    match db.userToken with
    | some ut =>
      { ut with
        accessToken := tokens.access_token.getD ""
        refreshToken := jsOrStr tokens.refresh_token ut.refreshToken
        scope := tokens.scope.getD ""
        tokenType := tokens.token_type.getD ""
        expiryDate := tokens.expiry_date }
    | none =>
      { accessToken := tokens.access_token.getD ""
        refreshToken := tokens.refresh_token
        scope := tokens.scope.getD ""
        tokenType := tokens.token_type.getD ""
        expiryDate := tokens.expiry_date }
  if env.saveOk then .ok { userToken := some userToken }
  else .error "Failed to save authentication tokens"

/-- Embeds `AuthService.refreshTokens`: run the token exchange, persist the result,
update the client.  Any failure in the block (exchange or save) is caught
and rethrown as `Failed to refresh authentication tokens`; on the failure
path the store is left exactly as it was. -/
def refreshTokens (env : AuthEnv) (st : AuthState) : (Except String Unit) × AuthState :=
  let st := { st with refreshCalls := st.refreshCalls + 1 }
  match env.refreshAccessToken with
  | .error _ => (.error "Failed to refresh authentication tokens", st)
  | .ok credentials =>
    match saveTokens env st.db credentials with
    | .error _ => (.error "Failed to refresh authentication tokens", st)
    | .ok db' =>
      (.ok (), { st with db := db', clientCredentials := some credentials })

/-- Embeds `AuthService.getAuthenticated`: load the stored row (throwing
`No authentication tokens found` when absent), install it on the client,
refresh only when the expiry is truthy, in the past, and a refresh token
is present, and return the client (modelled by its credential state).
When the expiry has passed but no refresh token is stored, no branch
fires: the method returns the client still holding the expired tokens. -/
def getAuthenticated (env : AuthEnv) (st : AuthState) :
    (Except String Credentials) × AuthState :=
  match loadTokens st.db with
  | none => (.error "No authentication tokens found", st)
  | some userToken =>
    let tokens := tokenToCredentials userToken
    let st := { st with clientCredentials := some tokens }
    if expiryTruthyAndPast userToken.expiryDate env.now
        && strTruthy userToken.refreshToken then
      match refreshTokens env st with
      | (.error e, st) => (.error e, st)
      | (.ok _, st) => (.ok (st.clientCredentials.getD tokens), st)
    else (.ok tokens, st)

/-- A credential is unexpired at `now` when its expiry, if any, is in the
future. -/
def unexpiredAt (c : Credentials) (now : Int) : Prop :=
  ∀ d, c.expiry_date = some d → now < d

/-- A stored token that is expired at time 100 and has no refresh token. -/
def c1Ut : UserToken := ⟨"old-access", none, "scope", "Bearer", some 50⟩

/-- Environment at time 100; the token exchange is never reached. -/
def c1Env : AuthEnv := ⟨100, .error "unused", true⟩

def c1St : AuthState := ⟨⟨some c1Ut⟩, none, 0⟩

/-- One already-processed email for the C5 witness. -/
def c5Doc : ProcessedDocumentRec :=
  { emailId := "m1", messageId := "m1", senderEmail := "a@x.com",
    senderName := "a", subject := "Invoice 1", invoiceNumber := some "1",
    emailDate := "2024-01-01", fileName := "f", originalFileName := "f.pdf",
    driveFileId := "d1", driveFileUrl := "u", spreadsheetId := "s1",
    spreadsheetRow := 2, fileSize := "1.5 KB", mimeType := "application/pdf",
    status := "completed" }

/-- Oracles for the C5 witness: the mailbox returns only the already
processed email `m1`. -/
def c5Env : ScanEnv :=
  { ensureFolder := .ok "folder1"
    ensureSpreadsheet := .ok "sheet1"
    searchEmails := .ok [⟨"m1"⟩]
    getEmailDetails := fun _ => .error "unused"
    downloadAttachment := fun _ _ => .error "unused"
    uploadFile := fun _ _ => .error "unused"
    logDocument := fun _ _ => .error "unused"
    saveDoc := fun _ _ => .error "unused"
    labelEmail := fun _ => .error "unused"
    saveScanLog := fun _ => .ok ()
    nameEnv := ⟨"RAND00", fun _ => some "2024-01-01", "2026-10-11"⟩ }

/-- Oracles for the C3 counterexample: one fresh email whose only
attachment is a non-document `.zip` (so the email "succeeds" with zero
documents), and a run-log store whose second write — the final
`completed` save after the loop — fails. -/
def c3Env : ScanEnv :=
  { ensureFolder := .ok "folder1"
    ensureSpreadsheet := .ok "sheet1"
    searchEmails := .ok [⟨"m1"⟩]
    getEmailDetails := fun m => .ok ⟨m, "hello", "alice@x.com", "2024-01-01",
      [⟨"archive.zip", "att1", "application/zip", 10⟩]⟩
    downloadAttachment := fun _ _ => .error "unused"
    uploadFile := fun _ _ => .error "unused"
    logDocument := fun _ _ => .error "unused"
    saveDoc := fun _ _ => .error "unused"
    labelEmail := fun _ => .error "unused"
    saveScanLog := fun n => if n = 1 then .error "db write failed" else .ok ()
    nameEnv := ⟨"RAND00", fun _ => some "2024-01-01", "2026-10-11"⟩ }

/-- The C3 witness environment: folder provisioning is down, every
run-log write succeeds. -/
def c3SetupEnv : ScanEnv :=
  { c3Env with
    ensureFolder := .error "drive down"
    saveScanLog := fun _ => .ok () }

/-- The C2 scenario from the spec's testable property: three unprocessed
emails `m1 m2 m3`, each carrying a single `a.pdf` attachment; the
attachment fetch fails only for `m2`, every other collaborator call
succeeds. -/
def c2Env : ScanEnv :=
  { ensureFolder := .ok "folder1"
    ensureSpreadsheet := .ok "sheet1"
    searchEmails := .ok [⟨"m1"⟩, ⟨"m2"⟩, ⟨"m3"⟩]
    getEmailDetails := fun m => .ok ⟨m, "Invoice #4821", "alice@x.com", "2024-01-01",
      [⟨"a.pdf", "att-" ++ m, "application/pdf", 1536⟩]⟩
    downloadAttachment := fun m _ => if m = "m2" then .error "fetch failed" else .ok ()
    uploadFile := fun m _ => .ok ("drive-" ++ m)
    logDocument := fun _ _ => .ok 5
    saveDoc := fun _ _ => .ok ()
    labelEmail := fun _ => .ok ()
    saveScanLog := fun _ => .ok ()
    nameEnv := ⟨"RAND00", fun _ => some "2024-01-01", "2026-10-11"⟩ }

/-- Oracles for the C8 witness: one email whose only attachment is
`archive.zip`. -/
def c8Env : ScanEnv :=
  { ensureFolder := .ok "folder1"
    ensureSpreadsheet := .ok "sheet1"
    searchEmails := .ok [⟨"m1"⟩]
    getEmailDetails := fun m => .ok ⟨m, "hello", "alice@x.com", "2024-01-01",
      [⟨"archive.zip", "att1", "application/zip", 10⟩]⟩
    downloadAttachment := fun _ _ => .error "unused"
    uploadFile := fun _ _ => .error "unused"
    logDocument := fun _ _ => .error "unused"
    saveDoc := fun _ _ => .error "unused"
    labelEmail := fun _ => .error "unused"
    saveScanLog := fun _ => .ok ()
    nameEnv := ⟨"RAND00", fun _ => some "2024-01-01", "2026-10-11"⟩ }

/-- Oracles for the C9 witness: a single fresh email `m1` with one `.pdf`
attachment for which every collaborator call succeeds. -/
def c9Env : ScanEnv :=
  { c2Env with
    searchEmails := .ok [⟨"m1"⟩]
    downloadAttachment := fun _ _ => .ok () }

/-- Character class `[A-Z0-9]`. -/
def isUpperAlnum (c : Char) : Bool := ('A' ≤ c ∧ c ≤ 'Z') || isDigitChar c

/-- The spec's acceptance regex `^INV[A-Z0-9]{6}$`, as a predicate for
comparison with the code's output. -/
def matchesInvTokenRegex (s : String) : Bool :=
  decide (s.toList.take 3 = ['I', 'N', 'V']) &&
  decide (s.toList.length = 9) &&
  (s.toList.drop 3).all isUpperAlnum

end FinDoc

deriving instance DecidableEq for Except

namespace FinDoc

/-! ## Theorems -/

/-- Closed form of the `formatFileSize` loop started at index 0: the unit
index is the number of times 1024 divides into the size, capped by the
guard at 4 (one past the last valid index of `units`). -/
theorem fsLoop_zero_eq (s : ℚ) :
    fsLoop s 0 =
      if 1024 ≤ s then
        if 1024 ^ 2 ≤ s then
          if 1024 ^ 3 ≤ s then
            if 1024 ^ 4 ≤ s then (s / 1024 / 1024 / 1024 / 1024, 4)
            else (s / 1024 / 1024 / 1024, 3)
          else (s / 1024 / 1024, 2)
        else (s / 1024, 1)
      else (s, 0) := by
  have h0 : (0 : ℚ) < 1024 := by norm_num
  have e2 : (1024 : ℚ) ≤ s / 1024 ↔ 1024 ^ 2 ≤ s := by
    rw [le_div_iff₀ h0]; constructor <;> intro h <;> nlinarith
  have e3 : (1024 : ℚ) ≤ s / 1024 / 1024 ↔ 1024 ^ 3 ≤ s := by
    rw [le_div_iff₀ h0, le_div_iff₀ h0]; constructor <;> intro h <;> nlinarith
  have e4 : (1024 : ℚ) ≤ s / 1024 / 1024 / 1024 ↔ 1024 ^ 4 ≤ s := by
    rw [le_div_iff₀ h0, le_div_iff₀ h0, le_div_iff₀ h0]
    constructor <;> intro h <;> nlinarith
  show fsLoopAux s 0 (units.length - 0) = _
  norm_num [units, fsLoopAux, e2, e3, e4]

/-- For sizes strictly between 0 and `1024^4` the final unit index is in
bounds and the formatter output carries one of the four real units. -/
theorem formatFileSize_in_range (s : ℚ) (hs : 0 < s) (hlt : s < 1024 ^ 4) :
    (fsLoop s 0).2 < units.length ∧
    ∃ u ∈ units,
      formatFileSize s =
        jsNumToString (jsRound ((fsLoop s 0).1 * 100)) ++ " " ++ u := by
  have hne : ¬ s = 0 := by positivity
  have hcf := fsLoop_zero_eq s
  have hgoal : ∀ u : String, u ∈ units →
      units.get? (fsLoop s 0).2 = some u →
      ∃ u' ∈ units,
        formatFileSize s =
          jsNumToString (jsRound ((fsLoop s 0).1 * 100)) ++ " " ++ u' := by
    intro u hu hget
    refine ⟨u, hu, ?_⟩
    show (if s = 0 then "Unknown"
      else jsNumToString (jsRound ((fsLoop s 0).1 * 100)) ++ " " ++
        ((units.get? (fsLoop s 0).2).getD "undefined")) = _
    rw [if_neg hne, hget]
    rfl
  split_ifs at hcf with h1 h2 h3 h4
  · exact absurd hlt (not_lt.mpr h4)
  · exact ⟨by rw [hcf]; norm_num [units],
      hgoal "GB" (by norm_num [units]) (by rw [hcf]; rfl)⟩
  · exact ⟨by rw [hcf]; norm_num [units],
      hgoal "MB" (by norm_num [units]) (by rw [hcf]; rfl)⟩
  · exact ⟨by rw [hcf]; norm_num [units],
      hgoal "KB" (by norm_num [units]) (by rw [hcf]; rfl)⟩
  · exact ⟨by rw [hcf]; norm_num [units],
      hgoal "B" (by norm_num [units]) (by rw [hcf]; rfl)⟩

/-- For any size at or above `1024^4` the loop leaves the array: the final
unit index is 4 in a four-element array. -/
theorem fsLoop_out_of_bounds (s : ℚ) (hge : 1024 ^ 4 ≤ s) :
    (fsLoop s 0).2 = 4 ∧ units.length = 4 := by
  have hcf := fsLoop_zero_eq s
  have h1 : (1024 : ℚ) ≤ s := by nlinarith
  have h2 : (1024 : ℚ) ^ 2 ≤ s := by nlinarith
  have h3 : (1024 : ℚ) ^ 3 ≤ s := by nlinarith
  rw [if_pos h1, if_pos h2, if_pos h3, if_pos hge] at hcf
  rw [hcf]
  simp [units]

/-- C7 counterexample: at size `1024^4` the unit lookup is out of bounds
(`units[4]` is JS `undefined`), so the formatter renders `"1 undefined"`
rather than a `B/KB/MB/GB`-scaled string — the claim's universal
quantification over every attachment size fails. -/
theorem C7_counterexample :
    formatFileSize ((1024 : ℚ) ^ 4) = "1 undefined" ∧
    units.get? (fsLoop ((1024 : ℚ) ^ 4) 0).2 = none ∧
    units = ["B", "KB", "MB", "GB"] := by
  refine ⟨?_, ?_, rfl⟩
  · norm_num [formatFileSize, fsLoop, fsLoopAux, units, jsRound, jsNumToString]
    rfl
  · norm_num [fsLoop, fsLoopAux, units]

/-- C7 (amended): for attachment sizes strictly between 0 and `1024^4`
the formatter renders the binary-scaled value rounded to two decimals
followed by one of the units `B/KB/MB/GB`; size 0 renders the literal
`"Unknown"`; size 1536 formats as `"1.5 KB"` and size 1073741824 as
`"1 GB"`.  (Sizes at or above `1024^4` are excluded: there the unit
lookup leaves the array, see the counterexample.) -/
theorem C7_format_file_size :
    (∀ s : ℚ, 0 < s → s < 1024 ^ 4 →
      ∃ u ∈ units,
        formatFileSize s =
          jsNumToString (jsRound ((fsLoop s 0).1 * 100)) ++ " " ++ u) ∧
    formatFileSize 0 = "Unknown" ∧
    formatFileSize 1536 = "1.5 KB" ∧
    formatFileSize 1073741824 = "1 GB" := by
  refine ⟨fun s hs hlt => (formatFileSize_in_range s hs hlt).2,
    by norm_num [formatFileSize], ?_, ?_⟩
  · norm_num [formatFileSize, fsLoop, fsLoopAux, units, jsRound, jsNumToString]
    rfl
  · norm_num [formatFileSize, fsLoop, fsLoopAux, units, jsRound, jsNumToString]
    rfl

/-- C7 witness: the general clause of the amended claim instantiated at
the concrete size 1536. -/
theorem C7_format_file_size_witness :
    ∃ u ∈ units,
      formatFileSize 1536 =
        jsNumToString (jsRound ((fsLoop 1536 0).1 * 100)) ++ " " ++ u :=
  C7_format_file_size.1 1536 (by norm_num) (by norm_num)

/-- C10: the unit lookup of `formatFileSize` stays inside the four-element
`units` array exactly for sizes below `1024^4`: for `0 < size < 1024^4`
the final index is in bounds and the rendered string carries one of
`B/KB/MB/GB`, while for any `size ≥ 1024^4` the loop guard
(`unitIndex <= units.length - 1`, checked before incrementing) lets the
index reach 4, one past the end of the array. -/
theorem C10_bounded_unit_lookup (s : ℚ) :
    (0 < s → s < 1024 ^ 4 →
      (fsLoop s 0).2 < units.length ∧
      ∃ u ∈ units,
        formatFileSize s =
          jsNumToString (jsRound ((fsLoop s 0).1 * 100)) ++ " " ++ u) ∧
    (1024 ^ 4 ≤ s → (fsLoop s 0).2 = 4 ∧ units.length = 4) :=
  ⟨fun hs hlt => formatFileSize_in_range s hs hlt, fun hge => fsLoop_out_of_bounds s hge⟩

/-- C10 witness: in-bounds at size 1536, out of bounds at size `1024^4`. -/
theorem C10_bounded_unit_lookup_witness :
    (fsLoop 1536 0).2 < units.length ∧ (fsLoop ((1024 : ℚ) ^ 4) 0).2 = 4 :=
  ⟨((C10_bounded_unit_lookup 1536).1 (by norm_num) (by norm_num)).1,
   ((C10_bounded_unit_lookup ((1024 : ℚ) ^ 4)).2 (by norm_num)).1⟩

/-! ### Credential lifecycle (C1, C4) -/

/-- C1 counterexample: with a stored credential whose expiry (50) is in
the past of `Date.now()` (100) and no refresh token, `getAuthenticated`
does not fail with `CredentialExpired` — it succeeds, performs zero
refresh calls, and hands back the still-expired stored credential. -/
theorem C1_counterexample :
    expiryTruthyAndPast c1Ut.expiryDate c1Env.now = true ∧
    strTruthy c1Ut.refreshToken = false ∧
    (getAuthenticated c1Env c1St).1 = .ok (tokenToCredentials c1Ut) ∧
    (getAuthenticated c1Env c1St).2.refreshCalls = 0 ∧
    ¬ unexpiredAt (tokenToCredentials c1Ut) c1Env.now := by
  refine ⟨by decide, by decide, by decide, by decide, fun h => ?_⟩
  have := h 50 rfl
  norm_num [c1Env] at this

/-- C1 (amended): for a stored credential whose `expiryEpochMillis` is
truthy and in the past — (i) with a refresh token present,
`getAuthenticated` performs exactly one refresh call and, when the
exchange succeeds with an unexpired token set and the save succeeds,
returns that unexpired credential; (ii) with no refresh token present it
performs no refresh call and returns the stored (still expired)
credential without failing, instead of raising `CredentialExpired`. -/
theorem C1_credential_refresh (env : AuthEnv) (st : AuthState) (ut : UserToken)
    (hload : st.db.userToken = some ut)
    (hexp : expiryTruthyAndPast ut.expiryDate env.now = true) :
    (strTruthy ut.refreshToken = true →
      ∀ creds, env.refreshAccessToken = .ok creds → env.saveOk = true →
        (getAuthenticated env st).1 = .ok creds ∧
        (getAuthenticated env st).2.refreshCalls = st.refreshCalls + 1 ∧
        (unexpiredAt creds env.now →
          ∀ c, (getAuthenticated env st).1 = .ok c → unexpiredAt c env.now)) ∧
    (strTruthy ut.refreshToken = false →
      (getAuthenticated env st).1 = .ok (tokenToCredentials ut) ∧
      (getAuthenticated env st).2.refreshCalls = st.refreshCalls) := by
  constructor
  · intro hrt creds hcreds hsave
    have h1 : (getAuthenticated env st).1 = .ok creds ∧
        (getAuthenticated env st).2.refreshCalls = st.refreshCalls + 1 := by
      simp [getAuthenticated, loadTokens, hload, hexp, hrt, refreshTokens,
        hcreds, saveTokens, hsave]
    refine ⟨h1.1, h1.2, ?_⟩
    intro hun c hc
    rw [h1.1] at hc
    cases hc
    exact hun
  · intro hrt
    simp [getAuthenticated, loadTokens, hload, hexp, hrt]

/-- C1 witness: the refresh branch at a concrete expired credential with
a refresh token, and a concrete successful exchange. -/
theorem C1_credential_refresh_witness :
    (getAuthenticated ⟨100, .ok ⟨some "new", some "r2", some "s", some "t", some 200⟩, true⟩
        ⟨⟨some ⟨"old", some "r", "s", "t", some 50⟩⟩, none, 0⟩).1 =
      .ok ⟨some "new", some "r2", some "s", some "t", some 200⟩ ∧
    (getAuthenticated ⟨100, .ok ⟨some "new", some "r2", some "s", some "t", some 200⟩, true⟩
        ⟨⟨some ⟨"old", some "r", "s", "t", some 50⟩⟩, none, 0⟩).2.refreshCalls = 1 := by
  have h := (C1_credential_refresh
    ⟨100, .ok ⟨some "new", some "r2", some "s", some "t", some 200⟩, true⟩
    ⟨⟨some ⟨"old", some "r", "s", "t", some 50⟩⟩, none, 0⟩
    ⟨"old", some "r", "s", "t", some 50⟩ rfl (by decide)).1 (by decide)
    ⟨some "new", some "r2", some "s", some "t", some 200⟩ rfl rfl
  exact ⟨h.1, h.2.1⟩

/-- C4: when the token-exchange call rejects, `refreshTokens` rethrows the
fixed `RefreshFailed` message and the stored credential record is left
unchanged (the `saveTokens` step is never reached); the same failure
propagates out of `getAuthenticated` when the refresh was triggered by an
expired stored credential with a refresh token. -/
theorem C4_refresh_failure_keeps_store (env : AuthEnv) (st : AuthState) (e : String)
    (hx : env.refreshAccessToken = .error e) :
    (refreshTokens env st).1 = .error "Failed to refresh authentication tokens" ∧
    (refreshTokens env st).2.db = st.db ∧
    (∀ ut, st.db.userToken = some ut →
      expiryTruthyAndPast ut.expiryDate env.now = true →
      strTruthy ut.refreshToken = true →
      (getAuthenticated env st).1 = .error "Failed to refresh authentication tokens" ∧
      (getAuthenticated env st).2.db = st.db) := by
  refine ⟨by simp [refreshTokens, hx], by simp [refreshTokens, hx], ?_⟩
  intro ut hload hexp hrt
  simp [getAuthenticated, loadTokens, hload, hexp, hrt, refreshTokens, hx]

/-- C4 witness: a concrete rejected exchange leaves the concrete store
untouched and surfaces the `RefreshFailed` message. -/
theorem C4_refresh_failure_keeps_store_witness :
    (refreshTokens ⟨100, .error "exchange rejected", true⟩
        ⟨⟨some ⟨"old", some "r", "s", "t", some 50⟩⟩, none, 0⟩).1 =
      .error "Failed to refresh authentication tokens" ∧
    (refreshTokens ⟨100, .error "exchange rejected", true⟩
        ⟨⟨some ⟨"old", some "r", "s", "t", some 50⟩⟩, none, 0⟩).2.db =
      ⟨some ⟨"old", some "r", "s", "t", some 50⟩⟩ := by
  have h := C4_refresh_failure_keeps_store ⟨100, .error "exchange rejected", true⟩
    ⟨⟨some ⟨"old", some "r", "s", "t", some 50⟩⟩, none, 0⟩ "exchange rejected" rfl
  exact ⟨h.1, h.2.1⟩

/-! ### Scan orchestration (C2, C3, C5, C8, C9) -/

/-- C5: when every candidate email already has a `ProcessedDocument`
record, the dedup filter leaves nothing to process, so the scan completes
immediately with zero processed emails, zero errors, an untouched
document store, no label applications, and a persisted `completed` run
with all-zero counters. -/
theorem C5_idempotent_rescan (env : ScanEnv) (db : Db) (msgs : List MessageRef)
    (folderId spreadsheetId : String)
    (h0 : env.saveScanLog 0 = .ok ()) (h1 : env.saveScanLog 1 = .ok ())
    (hf : env.ensureFolder = .ok folderId)
    (hs : env.ensureSpreadsheet = .ok spreadsheetId)
    (hm : env.searchEmails = .ok msgs)
    (hall : ∀ m ∈ msgs, m.id ∈ db.docs.map (·.emailId)) :
    unprocessedOf msgs db = [] ∧
    (scanAndProcess env db).1 = .ok ⟨0, [], []⟩ ∧
    (scanAndProcess env db).2.savedLog = some ⟨"completed", 0, 0, 0, none, true⟩ ∧
    (scanAndProcess env db).2.docs = db.docs ∧
    (scanAndProcess env db).2.labels = db.labels := by
  have hempty : unprocessedOf msgs db = [] := by
    rw [unprocessedOf, List.filter_eq_nil_iff]
    intro m hmem
    simpa using hall m hmem
  have hempty2 : unprocessedOf msgs { db with savedLog := some ⟨"started", 0, 0, 0, none, false⟩ } = [] := hempty
  refine ⟨hempty, ?_⟩
  simp [scanAndProcess, scanBody, driveEnsureFolder, sheetsEnsureSpreadsheet,
    gmailSearchEmails, wrapErr, h0, h1, hf, hs, hm, hempty2]

/-- C5 witness: a second scan over a mailbox whose only candidate is the
already-recorded `m1` processes nothing and reports no errors. -/
theorem C5_idempotent_rescan_witness :
    unprocessedOf [⟨"m1"⟩] ⟨[c5Doc], none, []⟩ = [] ∧
    (scanAndProcess c5Env ⟨[c5Doc], none, []⟩).1 = .ok ⟨0, [], []⟩ ∧
    (scanAndProcess c5Env ⟨[c5Doc], none, []⟩).2.savedLog =
      some ⟨"completed", 0, 0, 0, none, true⟩ ∧
    (scanAndProcess c5Env ⟨[c5Doc], none, []⟩).2.docs = [c5Doc] ∧
    (scanAndProcess c5Env ⟨[c5Doc], none, []⟩).2.labels = [] :=
  C5_idempotent_rescan c5Env ⟨[c5Doc], none, []⟩ [⟨"m1"⟩] "folder1" "sheet1"
    rfl rfl rfl rfl rfl (by decide)

/-- C3 counterexample: a failure of a run-log store write outside the
per-email boundary (the final save after the loop) does mark the run
`FAILED`, persist it and re-raise — but the persisted FAILED run records
`emailsProcessed = 1`: an email *was* processed, contradicting the
claim's "no email is processed" (and its all-zero round-trip) for this
class of failures. -/
theorem C3_counterexample :
    (scanAndProcess c3Env ⟨[], none, []⟩).1 = .error "Scan process failed: db write failed" ∧
    (scanAndProcess c3Env ⟨[], none, []⟩).2.savedLog =
      some ⟨"failed", 1, 0, 0, some "db write failed", true⟩ := by
  constructor <;> decide

/-- C3 (amended): for every failure in the setup phase proper — archive
container provisioning, ledger provisioning, or the candidate search,
i.e. everything before the per-email loop — the scan marks the run
`FAILED` with the causing error message, persists it, and re-raises
wrapped as `Scan process failed: …`; such a FAILED run has all-zero
counters and no email is touched (no documents, no labels).  A run-log
write failing *after* the loop also marks the run FAILED and re-raises,
but its persisted counters reflect the finished loop (see the
counterexample), and the initial run-log save precedes the try/catch
entirely. -/
theorem C3_setup_failure_aborts (env : ScanEnv) (db : Db) (e : String)
    (h0 : env.saveScanLog 0 = .ok ()) (h1 : env.saveScanLog 1 = .ok ())
    (hsetup : driveEnsureFolder env = .error e ∨
      ((∃ f, driveEnsureFolder env = .ok f) ∧ sheetsEnsureSpreadsheet env = .error e) ∨
      ((∃ f, driveEnsureFolder env = .ok f) ∧ (∃ s, sheetsEnsureSpreadsheet env = .ok s) ∧
        gmailSearchEmails env = .error e)) :
    (scanAndProcess env db).1 = .error ("Scan process failed: " ++ e) ∧
    (scanAndProcess env db).2.savedLog = some ⟨"failed", 0, 0, 0, some e, true⟩ ∧
    (scanAndProcess env db).2.docs = db.docs ∧
    (scanAndProcess env db).2.labels = db.labels := by
  rcases hsetup with hc | ⟨⟨f, hf⟩, hc⟩ | ⟨⟨f, hf⟩, ⟨s, hs⟩, hc⟩
  · simp [scanAndProcess, scanBody, h0, h1, hc]
  · simp [scanAndProcess, scanBody, h0, h1, hf, hc]
  · simp [scanAndProcess, scanBody, h0, h1, hf, hs, hc]

/-- C3 witness: concrete Drive-folder provisioning failure aborts the run
with all-zero counters and no email side effects. -/
theorem C3_setup_failure_aborts_witness :
    (scanAndProcess c3SetupEnv ⟨[], none, []⟩).1 =
      .error "Scan process failed: Failed to manage Drive folder: drive down" ∧
    (scanAndProcess c3SetupEnv ⟨[], none, []⟩).2.savedLog =
      some ⟨"failed", 0, 0, 0, some "Failed to manage Drive folder: drive down", true⟩ ∧
    (scanAndProcess c3SetupEnv ⟨[], none, []⟩).2.docs = [] ∧
    (scanAndProcess c3SetupEnv ⟨[], none, []⟩).2.labels = [] :=
  C3_setup_failure_aborts c3SetupEnv ⟨[], none, []⟩
    "Failed to manage Drive folder: drive down" rfl rfl (Or.inl rfl)

/-- C2, evaluated on the code at the claim's own scenario: the run
completes, but `processedCount` is 0 (not 2) and there are three error
strings (not one), each of the shape `Email <id>: …` (not `<id>: …`) —
emails `m1` and `m3` fail with the `ReferenceError` from the undeclared
identifier `structuredFilename` raised *after* their document rows were
persisted (the store gains `m1` and `m3`), and `m2` fails with the
wrapped download error. -/
theorem C2_code_evaluation :
    (scanAndProcess c2Env ⟨[], none, []⟩).1 =
      .ok ⟨0,
        ["Email m1: Failed to process attachment a.pdf: structuredFilename is not defined",
         "Email m2: Failed to process attachment a.pdf: Failed to download attachment: fetch failed",
         "Email m3: Failed to process attachment a.pdf: structuredFilename is not defined"],
        []⟩ ∧
    (scanAndProcess c2Env ⟨[], none, []⟩).2.docs.map (·.emailId) = ["m1", "m3"] ∧
    (scanAndProcess c2Env ⟨[], none, []⟩).2.labels = [] := by
  refine ⟨by decide, by decide, by decide⟩

/-- An attachment loop over attachments that are all non-document files
returns the accumulator unchanged and leaves the store untouched. -/
theorem processAttachments_all_skip (env : ScanEnv)
    (msgId folderId spreadsheetId : String) (details : EmailDetails) :
    ∀ (atts : List EmailAttachment) (db : Db) (acc : List DocumentSummary),
      (∀ a ∈ atts, isDocumentFile a.filename = false) →
      processAttachments env msgId folderId spreadsheetId details atts db acc =
        (.ok acc, db) := by
  intro atts
  induction atts with
  | nil => intro db acc _; rfl
  | cons a rest ih =>
    intro db acc hall
    have ha : isDocumentFile a.filename = false := hall a (by simp)
    rw [processAttachments, if_pos (by simp [ha])]
    exact ih db acc (fun b hb => hall b (by simp [hb]))

/-- C8: an attachment whose filename extension is outside the
case-insensitive allow-list is skipped — the loop step is the identity on
the store and the accumulator, raising no error and persisting no
document; consequently, an email all of whose attachments are skipped
returns zero documents, and since the processed marker is applied only
when at least one summary was produced, that email is *not* labelled and
nothing about the store changes. -/
theorem C8_non_document_skip (env : ScanEnv) (db : Db)
    (msgId folderId spreadsheetId : String) (details : EmailDetails)
    (hd : env.getEmailDetails msgId = .ok details)
    (hall : ∀ a ∈ details.attachments, isDocumentFile a.filename = false) :
    (∀ (a : EmailAttachment) (rest : List EmailAttachment) (acc : List DocumentSummary),
      isDocumentFile a.filename = false →
      processAttachments env msgId folderId spreadsheetId details (a :: rest) db acc =
        processAttachments env msgId folderId spreadsheetId details rest db acc) ∧
    processEmail env db msgId folderId spreadsheetId = (.ok [], db) := by
  constructor
  · intro a rest acc ha
    rw [processAttachments, if_pos (by simp [ha])]
  · simp [processEmail, gmailGetEmailDetails, wrapErr, hd,
      processAttachments_all_skip env msgId folderId spreadsheetId details
        details.attachments db [] hall]

/-- C8 witness: the `.zip`-only email yields zero documents, is not
labelled, and persists nothing. -/
theorem C8_non_document_skip_witness :
    processEmail c8Env ⟨[], none, []⟩ "m1" "folder1" "sheet1" = (.ok [], ⟨[], none, []⟩) :=
  (C8_non_document_skip c8Env ⟨[], none, []⟩ "m1" "folder1" "sheet1"
    ⟨"m1", "hello", "alice@x.com", "2024-01-01",
      [⟨"archive.zip", "att1", "application/zip", 10⟩]⟩ rfl (by decide)).2

/-- C9: in the per-attachment pipeline the `ProcessedDocument` row is
persisted *before* the per-email summary push, and the push's failure
(the `structuredFilename` `ReferenceError`) is not rolled back: a scan of
a fresh email whose attachment passes download, upload, sheet append and
document save ends with the email in the error list and zero processed
count, no processed label, yet the email's identifier newly present
in the `processed_documents` store — so the dedup filter of every future
scan excludes that email permanently despite its reported failure. -/
theorem C9_no_rollback_poisons_dedup (env : ScanEnv) (db : Db)
    (msgId folderId spreadsheetId fileId : String) (row : Nat)
    (details : EmailDetails) (a : EmailAttachment)
    (h0 : env.saveScanLog 0 = .ok ()) (h1 : env.saveScanLog 1 = .ok ())
    (hf : env.ensureFolder = .ok folderId)
    (hs : env.ensureSpreadsheet = .ok spreadsheetId)
    (hm : env.searchEmails = .ok [⟨msgId⟩])
    (hnew : ¬ msgId ∈ db.docs.map (·.emailId))
    (hd : env.getEmailDetails msgId = .ok details)
    (hatt : details.attachments = [a])
    (hdoc : isDocumentFile a.filename = true)
    (hdl : env.downloadAttachment msgId a.attachmentId = .ok ())
    (hup : env.uploadFile msgId a.attachmentId = .ok fileId)
    (hlog : env.logDocument msgId a.attachmentId = .ok row)
    (hsv : env.saveDoc msgId a.attachmentId = .ok ()) :
    (scanAndProcess env db).1 =
      .ok ⟨0, ["Email " ++ msgId ++ ": " ++ wrapAttach a.filename refErrorMsg], []⟩ ∧
    (scanAndProcess env db).2.docs.map (·.emailId) = db.docs.map (·.emailId) ++ [msgId] ∧
    (scanAndProcess env db).2.labels = db.labels ∧
    (∀ (msgs2 : List MessageRef) (m : MessageRef),
      m ∈ unprocessedOf msgs2 (scanAndProcess env db).2 → m.id ≠ msgId) := by
  have hmain : (scanAndProcess env db).1 =
      .ok ⟨0, ["Email " ++ msgId ++ ": " ++ wrapAttach a.filename refErrorMsg], []⟩ ∧
      (scanAndProcess env db).2.docs.map (·.emailId) = db.docs.map (·.emailId) ++ [msgId] ∧
      (scanAndProcess env db).2.labels = db.labels := by
    have hpt : decide (∀ x ∈ db.docs, ¬ x.emailId = msgId) = true := by
      rw [decide_eq_true_eq]
      exact fun x hx h => hnew (List.mem_map.mpr ⟨x, hx, h⟩)
    simp [scanAndProcess, scanBody, driveEnsureFolder, sheetsEnsureSpreadsheet,
      gmailSearchEmails, gmailGetEmailDetails, gmailDownloadAttachment,
      driveUploadFile, sheetsLogDocument, wrapErr, h0, h1, hf, hs, hm,
      unprocessedOf, List.filter_singleton, hpt, runLoop, processEmail, hd,
      processAttachments, hatt, hdoc, hdl, hup, hlog, hsv]
  refine ⟨hmain.1, hmain.2.1, hmain.2.2, ?_⟩
  intro msgs2 m hmem heq
  rw [unprocessedOf] at hmem
  have h2 := (List.mem_filter.mp hmem).2
  rw [heq] at h2
  simp [hmain.2.1] at h2

/-- C9 witness: after the scan, `m1` is reported as an error yet its
document row is persisted, and a rescan over the same mailbox finds
nothing left to process. -/
theorem C9_no_rollback_poisons_dedup_witness :
    (scanAndProcess c9Env ⟨[], none, []⟩).1 =
      .ok ⟨0, ["Email m1: Failed to process attachment a.pdf: structuredFilename is not defined"], []⟩ ∧
    (scanAndProcess c9Env ⟨[], none, []⟩).2.docs.map (·.emailId) = ["m1"] ∧
    (scanAndProcess c9Env ⟨[], none, []⟩).2.labels = [] ∧
    unprocessedOf [⟨"m1"⟩] (scanAndProcess c9Env ⟨[], none, []⟩).2 = [] := by
  have h := C9_no_rollback_poisons_dedup c9Env ⟨[], none, []⟩ "m1" "folder1" "sheet1"
    "drive-m1" 5
    ⟨"m1", "Invoice #4821", "alice@x.com", "2024-01-01",
      [⟨"a.pdf", "att-m1", "application/pdf", 1536⟩]⟩
    ⟨"a.pdf", "att-m1", "application/pdf", 1536⟩
    rfl rfl rfl rfl rfl (by decide) rfl rfl (by decide) rfl (by decide) rfl rfl
  refine ⟨h.1, by simpa using h.2.1, h.2.2.1, ?_⟩
  rw [List.eq_nil_iff_forall_not_mem]
  intro m hmem
  have hm1 : m = ⟨"m1"⟩ := by
    have h3 := List.mem_filter.mp (by rw [unprocessedOf] at hmem; exact hmem)
    simpa using h3.1
  exact h.2.2.2 [⟨"m1"⟩] m hmem (by rw [hm1])

/-! ### Invoice-token derivation (C6) -/

/-- Every character produced by the greedy digit scan is a digit. -/
theorem mem_takeDigits (cs : List Char) : ∀ c ∈ takeDigits cs, isDigitChar c = true := by
  induction cs with
  | nil => simp [takeDigits]
  | cons a l ih =>
    intro c hc
    rw [takeDigits] at hc
    by_cases h : isDigitChar a
    · rw [if_pos h] at hc
      rcases List.mem_cons.mp hc with rfl | hc
      · exact h
      · exact ih c hc
    · rw [if_neg h] at hc
      exact absurd hc (List.not_mem_nil c)

/-- A keyword-pattern capture is a nonempty digit run. -/
theorem kwMatchHere_digits (kw cs ds : List Char) (h : kwMatchHere kw cs = some ds) :
    ds ≠ [] ∧ ∀ c ∈ ds, isDigitChar c = true := by
  rw [kwMatchHere] at h
  cases hc : ciStrip kw cs with
  | none => rw [hc] at h; exact absurd h (by simp)
  | some rest =>
    rw [hc] at h
    by_cases he : (takeDigits (dropSpaceHash rest)).isEmpty
    · simp only [he, if_true] at h
      exact absurd h (by simp)
    · simp only [he, if_false] at h
      cases h
      exact ⟨by simpa [List.isEmpty_iff] using he, mem_takeDigits _⟩

/-- A `/#(\d+)/` capture is a nonempty digit run. -/
theorem hashMatchHere_digits (cs ds : List Char) (h : hashMatchHere cs = some ds) :
    ds ≠ [] ∧ ∀ c ∈ ds, isDigitChar c = true := by
  cases cs with
  | nil => exact absurd h (by simp [hashMatchHere])
  | cons c rest =>
    rw [hashMatchHere] at h
    by_cases hc : c = '#'
    · rw [if_pos hc] at h
      by_cases he : (takeDigits rest).isEmpty
      · simp only [he, if_true] at h
        exact absurd h (by simp)
      · simp only [he, if_false] at h
        cases h
        exact ⟨by simpa [List.isEmpty_iff] using he, mem_takeDigits _⟩
    · rw [if_neg hc] at h
      exact absurd h (by simp)

/-- A `/(\d{4,})/` capture is a nonempty digit run. -/
theorem digitsRunHere_digits (cs ds : List Char) (h : digitsRunHere cs = some ds) :
    ds ≠ [] ∧ ∀ c ∈ ds, isDigitChar c = true := by
  rw [digitsRunHere] at h
  by_cases hl : 4 ≤ (takeDigits cs).length
  · simp only [hl, if_true] at h
    cases h
    refine ⟨?_, mem_takeDigits _⟩
    intro hnil
    rw [hnil] at hl
    simp at hl
  · simp only [hl, if_false] at h
    exact absurd h (by simp)

/-- Left-to-right search preserves the capture property of the anchored
pattern. -/
theorem firstMatch_digits (f : List Char → Option (List Char))
    (hf : ∀ s ds, f s = some ds → ds ≠ [] ∧ ∀ c ∈ ds, isDigitChar c = true) :
    ∀ s ds, firstMatch f s = some ds → ds ≠ [] ∧ ∀ c ∈ ds, isDigitChar c = true := by
  intro s
  induction s with
  | nil => intro ds h; exact hf [] ds (by simpa [firstMatch] using h)
  | cons c cs ih =>
    intro ds h
    rw [firstMatch] at h
    cases hc : f (c :: cs) with
    | some r => rw [hc] at h; cases h; exact hf _ _ hc
    | none => rw [hc] at h; exact ih ds h

/-- Searching an ordered list of sound patterns yields a sound capture. -/
theorem tryPatterns_digits (ps : List (List Char → Option (List Char)))
    (hps : ∀ p ∈ ps, ∀ s ds, p s = some ds → ds ≠ [] ∧ ∀ c ∈ ds, isDigitChar c = true) :
    ∀ s ds, tryPatterns ps s = some ds → ds ≠ [] ∧ ∀ c ∈ ds, isDigitChar c = true := by
  induction ps with
  | nil => intro s ds h; exact absurd h (by simp [tryPatterns])
  | cons p ps ih =>
    intro s ds h
    rw [tryPatterns] at h
    cases hc : firstMatch p s with
    | some r =>
      rw [hc] at h
      cases h
      exact firstMatch_digits p (hps p (by simp)) s _ hc
    | none =>
      rw [hc] at h
      exact ih (fun q hq => hps q (by simp [hq])) s ds h

/-- Whatever the ordered pattern list of `DriveService.extractInvoiceNumber`
captures is a nonempty digit run. -/
theorem tryPatterns_drive_digits (s ds : List Char)
    (h : tryPatterns drivePatterns s = some ds) :
    ds ≠ [] ∧ ∀ c ∈ ds, isDigitChar c = true := by
  refine tryPatterns_digits drivePatterns ?_ s ds h
  intro p hp
  simp only [drivePatterns, List.mem_cons, List.not_mem_nil, or_false] at hp
  rcases hp with rfl | rfl | rfl | rfl | rfl | rfl
  · exact kwMatchHere_digits _
  · exact kwMatchHere_digits _
  · exact kwMatchHere_digits _
  · exact kwMatchHere_digits _
  · exact hashMatchHere_digits
  · exact digitsRunHere_digits

/-- C6: the invoice-token derivation tries, in order,
`invoice#123`, `inv#123`, `bill#123`, `receipt#123`, `#123`, then any run
of at least 4 digits; the first match wins and is rendered `INV<digits>`
(a nonempty all-digit capture), and when no pattern matches the random
token is substituted, so that a 6-character uppercase-alphanumeric token
makes the result match `^INV[A-Z0-9]{6}$`.  Concretely,
`"Invoice #4821 - March"` yields `INV4821`; the other instances pin the
pattern order (`bill` before `receipt`, `#` before the bare digit run). -/
theorem C6_invoice_token_derivation (subject rand : String) :
    extractInvoiceNumber "Invoice #4821 - March" rand = "INV4821" ∧
    extractInvoiceNumber "bill 99 receipt 1234" rand = "INV99" ∧
    extractInvoiceNumber "ref #12 code 99999" rand = "INV12" ∧
    extractInvoiceNumber "Payment 12345 due" rand = "INV12345" ∧
    (∀ ds, tryPatterns drivePatterns subject.toList = some ds →
      extractInvoiceNumber subject rand = "INV" ++ String.mk ds ∧
      ds ≠ [] ∧ ∀ c ∈ ds, isDigitChar c = true) ∧
    (tryPatterns drivePatterns subject.toList = none →
      extractInvoiceNumber subject rand = "INV" ++ rand ∧
      (rand.toList.length = 6 → (∀ c ∈ rand.toList, isUpperAlnum c = true) →
        matchesInvTokenRegex (extractInvoiceNumber subject rand) = true)) := by
  have e1 : tryPatterns drivePatterns ("Invoice #4821 - March".toList) =
      some ['4', '8', '2', '1'] := by decide
  have e2 : tryPatterns drivePatterns ("bill 99 receipt 1234".toList) =
      some ['9', '9'] := by decide
  have e3 : tryPatterns drivePatterns ("ref #12 code 99999".toList) =
      some ['1', '2'] := by decide
  have e4 : tryPatterns drivePatterns ("Payment 12345 due".toList) =
      some ['1', '2', '3', '4', '5'] := by decide
  refine ⟨by simp only [extractInvoiceNumber, e1]; decide,
    by simp only [extractInvoiceNumber, e2]; decide,
    by simp only [extractInvoiceNumber, e3]; decide,
    by simp only [extractInvoiceNumber, e4]; decide, ?_, ?_⟩
  · intro ds h
    rw [extractInvoiceNumber, h]
    exact ⟨rfl, tryPatterns_drive_digits subject.toList ds h⟩
  · intro h
    have he : extractInvoiceNumber subject rand = "INV" ++ rand := by
      rw [extractInvoiceNumber, h]
    refine ⟨he, fun hlen hchars => ?_⟩
    have hdata : ("INV" ++ rand).toList = ['I', 'N', 'V'] ++ rand.toList :=
      String.data_append "INV" rand
    rw [he, matchesInvTokenRegex, hdata]
    simp only [List.all_eq_true, Bool.and_eq_true, decide_eq_true_eq]
    refine ⟨⟨by simp, by simp; exact hlen⟩, fun x hx => hchars x (by simpa using hx)⟩

/-- C6 witness: a subject with no numeric pattern and a concrete
6-character token; the fallback result matches the acceptance regex. -/
theorem C6_invoice_token_derivation_witness :
    extractInvoiceNumber "Total due soon" "X7K2Q9" = "INVX7K2Q9" ∧
    matchesInvTokenRegex "INVX7K2Q9" = true := by
  have h := (C6_invoice_token_derivation "Total due soon" "X7K2Q9").2.2.2.2.2 (by decide)
  refine ⟨h.1, ?_⟩
  have h2 := h.2 (by decide) (by decide)
  rwa [h.1] at h2

end FinDoc
